import Mathlib

/-!
# Checkout backend (`server.js`): order creation, payment verification, coupon validation

A shallow embedding of the three request handlers of `server.js`

* `POST /api/checkout/create-order`  (`createOrder`)
* `POST /api/checkout/verify`        (`verify`)
* `POST /api/coupon/validate`        (`couponValidate`)

The handlers are written as pure functions of the database state, the request body and the
outcome of every external call they make (database statements, the payment gateway).
JavaScript values are embedded with the coercions the handlers rely on (truthiness, `||`,
`+` on strings, `*`, `<`, `!==`, `Number`, `Math.round`, `new Date`); IEEE-754 binary64
arithmetic is embedded over the rationals with explicit rounding.
-/

namespace AmmuOrganics

/-! ## JavaScript numbers -/

/-- A JavaScript Number: `NaN`, the two infinities, or a finite value.  Finite values are
carried as exact rationals (every binary64 value is one); arithmetic rounds its exact result
back to binary64 with `round64`.  The sign of zero is not tracked: no handler observes it. -/
inductive JsNum where
  | nan
  | posInf
  | negInf
  | fin (q : ℚ)
  deriving DecidableEq

/-- Round to the nearest integer, ties to the even one. -/
def roundHalfEven (t : ℚ) : ℤ :=
  if t - ⌊t⌋ < 1 / 2 then ⌊t⌋
  else if 1 / 2 < t - ⌊t⌋ then ⌊t⌋ + 1
  else if ⌊t⌋ % 2 = 0 then ⌊t⌋ else ⌊t⌋ + 1

/-- Exponent of the unit in the last place of the binary64 binade that holds `x`
(53 significant bits, smallest normal exponent `-1022`, subnormals below it). -/
def ulpExp (x : ℚ) : ℤ := max (Int.log 2 |x|) (-1022) - 52

/-- IEEE-754 binary64 round-to-nearest, ties-to-even, of an exact rational, with overflow to
infinity. -/
def round64 (x : ℚ) : JsNum :=
  if x = 0 then .fin 0
  else if (2 : ℚ) ^ (1024 : ℕ) ≤ |(roundHalfEven (x / (2 : ℚ) ^ ulpExp x) : ℚ) * (2 : ℚ) ^ ulpExp x| then
    (if x < 0 then .negInf else .posInf)
  else .fin ((roundHalfEven (x / (2 : ℚ) ^ ulpExp x) : ℚ) * (2 : ℚ) ^ ulpExp x)

namespace JsNum

/-- Number multiplication, the `*` of `it.price * it.qty` and `(totals.grand) * 100`. -/
def mul : JsNum → JsNum → JsNum
  | nan, _ => nan
  | _, nan => nan
  | fin a, fin b => round64 (a * b)
  | fin a, posInf => if a = 0 then nan else if a < 0 then negInf else posInf
  | fin a, negInf => if a = 0 then nan else if a < 0 then posInf else negInf
  | posInf, fin b => if b = 0 then nan else if b < 0 then negInf else posInf
  | negInf, fin b => if b = 0 then nan else if b < 0 then posInf else negInf
  | posInf, posInf => posInf
  | posInf, negInf => negInf
  | negInf, posInf => negInf
  | negInf, negInf => posInf

/-- Number comparison `a < b`; a comparison with `NaN` is false. -/
def lt : JsNum → JsNum → Bool
  | nan, _ => false
  | _, nan => false
  | fin a, fin b => decide (a < b)
  | fin _, posInf => true
  | fin _, negInf => false
  | posInf, _ => false
  | negInf, negInf => false
  | negInf, _ => true

/-- The function `Math.round`: the closest integer, ties towards `+∞`; `NaN` and the
infinities are returned unchanged. -/
def mathRound : JsNum → JsNum
  | fin q => fin (⌊q + 1 / 2⌋ : ℤ)
  | n => n

/-- A Number that is a mathematical integer (finite, no fractional part). -/
def IsInteger (n : JsNum) : Prop := ∃ k : ℤ, n = fin k

end JsNum

/-! ## JavaScript values -/

/-- The values the handlers see in request bodies and in rows returned by the database
driver: the JSON primitives, `undefined` (an absent field) and `Date` objects (what the
driver returns for timestamp columns), the latter carried by their time value. -/
inductive Val where
  | undefined
  | null
  | bool (b : Bool)
  | num (n : JsNum)
  | str (s : String)
  | date (t : JsNum)
  deriving DecidableEq

/-- Configuration and library functions of the runtime that `server.js` calls but does not
define.  They are parameters of the embedding: every theorem holds for all of them. -/
structure Env where
  /-- Value of `process.env.RAZORPAY_KEY_ID`. -/
  RAZORPAY_KEY_ID : String
  /-- Value of `process.env.RAZORPAY_KEY_SECRET`. -/
  RAZORPAY_KEY_SECRET : String
  /-- The call `crypto.createHmac('sha256', key).update(msg).digest('hex')`, as a function of
  `key` and `msg`. -/
  hmacSha256Hex : String → String → String
  /-- Number-to-String conversion. -/
  numberToString : JsNum → String
  /-- String form of a `Date` with the given time value. -/
  dateToString : JsNum → String
  /-- String-to-Number conversion (`Number("500.00")`). -/
  stringToNumber : String → JsNum
  /-- Time value of `new Date(s)` for a string `s`. -/
  dateParse : String → JsNum
  /-- The `orders.id` that a query parameter denotes in `WHERE id=$n`, if it denotes one
  (`none`: the comparison is true of no row). -/
  idParam : Val → Option Nat

/-- Truthiness (`ToBoolean`), as tested by `!x`, `x && y` and `x || y`. -/
def truthy : Val → Bool
  | .undefined => false
  | .null => false
  | .bool b => b
  | .num .nan => false
  | .num (.fin q) => decide (q ≠ 0)
  | .num _ => true
  | .str s => decide (s ≠ "")
  | .date _ => true

/-- The expression `a || b`. -/
def jsOr (a b : Val) : Val := if truthy a then a else b

/-- The conversion `ToNumber`, as applied by `Number(x)`, `*` and `<`. -/
def toNumber (env : Env) : Val → JsNum
  | .undefined => .nan
  | .null => .fin 0
  | .bool b => .fin (if b then 1 else 0)
  | .num n => n
  | .str s => env.stringToNumber s
  | .date t => t

/-- The conversion `ToString`, as applied by `+` with a string operand. -/
def toStr (env : Env) : Val → String
  | .undefined => "undefined"
  | .null => "null"
  | .bool b => if b then "true" else "false"
  | .num n => env.numberToString n
  | .str s => s
  | .date t => env.dateToString t

/-- The expression `a * b` on values. -/
def jsMul (env : Env) (a b : Val) : JsNum := (toNumber env a).mul (toNumber env b)

/-- The expression `a < b` where `b` is a Number. -/
def jsLtNum (env : Env) (a : Val) (b : JsNum) : Bool := (toNumber env a).lt b

/-- The operation `TimeClip` applied to `ToNumber(v)`: the time value of a `Date` built from
a number. -/
def timeClip : JsNum → JsNum
  | .fin q => if (8640000000000000 : ℚ) < |q| then .nan else .fin (if 0 ≤ q then ⌊q⌋ else ⌈q⌉ : ℤ)
  | _ => .nan

/-- Time value of `new Date(v)`. -/
def newDate (env : Env) : Val → JsNum
  | .date t => t
  | .str s => env.dateParse s
  | v => timeClip (toNumber env v)

/-! ## Database state -/

/-- A row of `orders`.  Columns hold the parameter values the handler supplied. -/
structure OrderRow where
  id : Nat
  user_id : Val
  total_price : Val
  status : String
  shipping_state : Val
  shipping_district : Val
  shipping_city : Val
  shipping_pincode : Val
  coupon_code : Val
  razorpay_order_id : Val
  payment_id : Val
  deriving DecidableEq

/-- A row of `order_items`. -/
structure OrderItemRow where
  order_id : Nat
  product_name : Val
  sku : Val
  unit_price : Val
  qty : Val
  total_price : Val
  deriving DecidableEq

/-- Modelled from the spec: the schema is not part of `server.js`.  The store generates order
ids (`RETURNING id`), unique per insert; here from a counter, which a rollback does not
rewind.  The columns an `INSERT` does not name (`razorpay_order_id`, `payment_id`) start as
SQL `NULL`. -/
structure Store where
  orders : List OrderRow
  order_items : List OrderItemRow
  nextId : Nat
  deriving DecidableEq

/-- Well-formed store: every order id and every item's order reference was issued by the id
generator, and `orders.id` is a key. -/
def Store.WF (st : Store) : Prop :=
  (∀ r ∈ st.orders, r.id < st.nextId) ∧ (∀ it ∈ st.order_items, it.order_id < st.nextId) ∧
    (st.orders.map OrderRow.id).Nodup

/-- The order with a given id (`SELECT * FROM orders WHERE id = ...`). -/
def Store.order? (st : Store) (id : Nat) : Option OrderRow := st.orders.find? fun r => r.id = id

/-- The items of an order, in insertion order. -/
def Store.itemsOf (st : Store) (id : Nat) : List OrderItemRow :=
  st.order_items.filter fun it => it.order_id = id

/-! ## Responses -/

/-- JSON bodies the handlers send. -/
inductive Body where
  /-- Body `{ orderId, razorpayOrderId, amount, key }`. -/
  | created (orderId : Nat) (razorpayOrderId : String) (amount : Val) (key : String)
  /-- Body `{ ok: true, orderId }`. -/
  | verified (orderId : Val)
  /-- Body `{ valid: true, code, type, value, desc }`. -/
  | coupon (code type : Val) (value : JsNum) (desc : Val)
  /-- Body `{ error }`. -/
  | error (error : String)
  deriving DecidableEq

/-- An HTTP response: status code and JSON body (`res.json` alone answers 200). -/
structure Response where
  status : Nat
  body : Body
  deriving DecidableEq

/-! ## `POST /api/checkout/verify` -/

/-- Body of a verify request. -/
structure VerifyBody where
  razorpay_order_id : Val
  razorpay_payment_id : Val
  razorpay_signature : Val
  clientOrderId : Val
  deriving DecidableEq

/-- The signed string `razorpay_order_id + '|' + razorpay_payment_id`. -/
def body (env : Env) (req : VerifyBody) : String :=
  toStr env req.razorpay_order_id ++ "|" ++ toStr env req.razorpay_payment_id

/-- The digest `createHmac('sha256', RAZORPAY_KEY_SECRET).update(body).digest('hex')`. -/
def expectedSignature (env : Env) (req : VerifyBody) : String :=
  env.hmacSha256Hex env.RAZORPAY_KEY_SECRET (body env req)

/-- The statement `UPDATE orders SET status='paid', payment_id=$2 WHERE id=$3`. -/
def markPaid (env : Env) (paymentId clientOrderId : Val) (orders : List OrderRow) : List OrderRow :=
  orders.map fun r =>
    if env.idParam clientOrderId = some r.id then { r with status := "paid", payment_id := paymentId }
    else r

/-- The verify handler.  `dbOk` tells whether the `UPDATE` completes (`false`: `pool.query`
throws, the statement changes nothing and the `catch` answers 500). -/
def verify (env : Env) (dbOk : Bool) (st : Store) (req : VerifyBody) : Store × Response :=
  if Val.str (expectedSignature env req) ≠ req.razorpay_signature then
    (st, ⟨400, .error "Invalid signature"⟩)
  else if !dbOk then
    (st, ⟨500, .error "Verification failed"⟩)
  else
    ({ st with orders := markPaid env req.razorpay_payment_id req.clientOrderId st.orders },
      ⟨200, .verified req.clientOrderId⟩)

/-! ## `POST /api/checkout/create-order` -/

/-- A cart line. -/
structure Item where
  product : Val
  name : Val
  sku : Val
  price : Val
  qty : Val
  deriving DecidableEq

/-- The object `totals`. -/
structure Totals where
  grand : Val
  deriving DecidableEq

/-- The object `shipping`. -/
structure Shipping where
  state : Val
  district : Val
  city : Val
  pincode : Val
  deriving DecidableEq

/-- Body of a create-order request. -/
structure CreateBody where
  items : List Item
  totals : Totals
  shipping : Shipping
  coupon : Val
  deriving DecidableEq

/-- Argument of `rzp.orders.create`. -/
structure GatewayRequest where
  amount : JsNum
  currency : String
  receipt : String
  payment_capture : Nat
  deriving DecidableEq

/-- Modelled from the spec: the gateway client is an external collaborator.  A created gateway
order carries its gateway order id and the amount the gateway confirmed. -/
structure RazorpayOrder where
  id : String
  amount : Val
  deriving DecidableEq

/-- The database steps of one create-order request. -/
inductive DbStep where
  | connect
  | begin
  | insertOrder
  | insertItem (i : Nat)
  | updateOrder
  | commit
  deriving DecidableEq

/-- Outcome of every external call a create-order request makes: whether each database step
completes (`false`: it throws) and what the gateway answers to an order-creation call
(`Except.error`: the call throws). -/
structure CreateWorld where
  dbOk : DbStep → Bool
  ordersCreate : GatewayRequest → Except String RazorpayOrder

/-- What a create-order request leaves behind: the committed database state, the response,
and the order-creation call sent to the gateway, if the handler got that far. -/
structure Outcome where
  store : Store
  response : Response
  sent : Option GatewayRequest

/-- The row of `INSERT INTO orders(user_id, total_price, status, shipping_…, coupon_code)`. -/
def orderRow (orderId : Nat) (req : CreateBody) : OrderRow :=
  { id := orderId
    user_id := .null
    total_price := req.totals.grand
    status := "pending"
    shipping_state := req.shipping.state
    shipping_district := req.shipping.district
    shipping_city := req.shipping.city
    shipping_pincode := req.shipping.pincode
    coupon_code := jsOr req.coupon .null
    razorpay_order_id := .null
    payment_id := .null }

/-- The row of `INSERT INTO order_items(order_id, product_name, sku, unit_price, qty,
total_price)` for one cart line. -/
def itemRow (env : Env) (orderId : Nat) (it : Item) : OrderItemRow :=
  { order_id := orderId
    product_name := jsOr it.product it.name
    sku := jsOr it.sku .null
    unit_price := it.price
    qty := it.qty
    total_price := .num (jsMul env it.price it.qty) }

/-- The amount `Math.round((totals.grand) * 100)`. -/
def amountPaise (env : Env) (req : CreateBody) : JsNum :=
  (jsMul env req.totals.grand (.num (.fin 100))).mathRound

/-- The order-creation call `{ amount: amountPaise, currency: 'INR', receipt: 'rcpt_' + orderId,
payment_capture: 1 }`. -/
def gatewayRequest (env : Env) (orderId : Nat) (req : CreateBody) : GatewayRequest :=
  { amount := amountPaise env req
    currency := "INR"
    receipt := "rcpt_" ++ toString orderId
    payment_capture := 1 }

/-- The statement `UPDATE orders SET razorpay_order_id=$1 WHERE id=$2`. -/
def setRazorpayOrderId (razorpayOrderId : String) (orderId : Nat) (orders : List OrderRow) :
    List OrderRow :=
  orders.map fun r => if r.id = orderId then { r with razorpay_order_id := .str razorpayOrderId } else r

/-- The answer of the outer `catch`, with the database as the aborted transaction leaves it. -/
def createFailed (st : Store) (sent : Option GatewayRequest) : Outcome :=
  ⟨st, ⟨500, .error "Create order failed"⟩, sent⟩

/-- The create-order handler.  All statements between `BEGIN` and `COMMIT` work on the
transaction's own view; it becomes the database state only when `COMMIT` completes.  Any
step that throws reaches `ROLLBACK` and the outer `catch` (whether `ROLLBACK` itself throws
or not, the transaction is discarded and the answer is the same). -/
def createOrder (env : Env) (w : CreateWorld) (st : Store) (req : CreateBody) : Outcome :=
  if !w.dbOk .connect then createFailed st none
  else if !w.dbOk .begin then createFailed st none
  else if !w.dbOk .insertOrder then createFailed st none
  else
    let orderId := st.nextId
    let aborted : Store := { st with nextId := st.nextId + 1 }
    if !(List.range req.items.length).all (fun i => w.dbOk (.insertItem i)) then
      createFailed aborted none
    else
      match w.ordersCreate (gatewayRequest env orderId req) with
      | .error _ => createFailed aborted (some (gatewayRequest env orderId req))
      | .ok razorpayOrder =>
        if !w.dbOk .updateOrder then createFailed aborted (some (gatewayRequest env orderId req))
        else if !w.dbOk .commit then createFailed aborted (some (gatewayRequest env orderId req))
        else
          { store :=
              { orders := setRazorpayOrderId razorpayOrder.id orderId (st.orders ++ [orderRow orderId req])
                order_items := st.order_items ++ req.items.map (itemRow env orderId)
                nextId := st.nextId + 1 }
            response := ⟨200, .created orderId razorpayOrder.id razorpayOrder.amount env.RAZORPAY_KEY_ID⟩
            sent := some (gatewayRequest env orderId req) }

/-! ## `POST /api/coupon/validate` -/

/-- The columns `code,type,value,min_amount,expires_at,description` of a `coupons` row. -/
structure CouponRow where
  code : Val
  type : Val
  value : Val
  min_amount : Val
  expires_at : Val
  description : Val
  deriving DecidableEq

/-- Body of a coupon-validation request. -/
structure CouponBody where
  code : Val
  subtotal : Val
  deriving DecidableEq

/-- The coupon validator.  `select p` is the outcome of
`pool.query('SELECT … FROM coupons WHERE code=$1', [p])`: the rows returned (the coupon
table, seen through the query) or `Except.error` when the query throws; `now` is the time
value of `new Date()` in milliseconds. -/
def couponValidate (env : Env) (select : Val → Except String (List CouponRow)) (now : ℤ)
    (req : CouponBody) : Response :=
  if !truthy req.code then ⟨400, .error "Missing code"⟩
  else
    match select req.code with
    | .error _ => ⟨500, .error "Coupon check failed"⟩
    | .ok rows =>
      match rows.head? with
      | none => ⟨400, .error "Invalid coupon"⟩
      | some row =>
        if truthy row.expires_at && (newDate env row.expires_at).lt (.fin now) then
          ⟨400, .error "Coupon expired"⟩
        else if truthy row.min_amount && jsLtNum env req.subtotal (toNumber env row.min_amount) then
          ⟨400, .error "Minimum order not met"⟩
        else
          ⟨200, .coupon row.code row.type (toNumber env row.value)
            (jsOr row.description (.str "Coupon applied"))⟩

/-- The spec's second check, "expiry timestamp present and strictly before current time":
present as the handler tests it (a truthy value), compared as `Date` time values. -/
def CouponRow.Expired (env : Env) (now : ℤ) (row : CouponRow) : Prop :=
  truthy row.expires_at = true ∧ (newDate env row.expires_at).lt (.fin now) = true

/-- The spec's third check, "minimum order amount present and subtotal below it": present as
the handler tests it (a truthy value), compared as Numbers. -/
def CouponRow.BelowMinimum (env : Env) (subtotal : Val) (row : CouponRow) : Prop :=
  truthy row.min_amount = true ∧
    (toNumber env subtotal).lt (toNumber env row.min_amount) = true

/-- The answer `200 { valid: true, code, type, value, desc }` for a coupon row. -/
def couponAccepted (env : Env) (row : CouponRow) : Response :=
  ⟨200, .coupon row.code row.type (toNumber env row.value)
    (jsOr row.description (.str "Coupon applied"))⟩

/-! ## Request sequences -/

/-- A request to the order store, with the outcome of the external calls it makes. -/
inductive Request where
  | create (w : CreateWorld) (req : CreateBody)
  | verify (dbOk : Bool) (req : VerifyBody)

/-- Database state after one request. -/
def step (env : Env) (st : Store) : Request → Store
  | .create w req => (createOrder env w st req).store
  | .verify dbOk req => (verify env dbOk st req).1

/-- Database state after a sequence of requests, applied in order. -/
def run (env : Env) (st : Store) (rs : List Request) : Store := rs.foldl (step env) st

/-- Status of the order with a given id, if there is one. -/
def Store.statusOf (st : Store) (id : Nat) : Option String := (st.order? id).map OrderRow.status

/-- A verify request that names order `id` and carries the signature the handler expects. -/
def Request.ValidVerifyOf (env : Env) (id : Nat) : Request → Prop
  | .verify _ req =>
    env.idParam req.clientOrderId = some id ∧
      req.razorpay_signature = .str (expectedSignature env req)
  | .create _ _ => False

/-! ## Sample data -/

/-- A parameter denotes an order id when it is a Number that is a natural number. -/
def sampleIdParam : Val → Option Nat
  | .num (.fin q) => if q.den = 1 ∧ 0 ≤ q.num then some q.num.toNat else none
  | _ => none

/-- A sample runtime; the keyed digest is a stand-in that is injective in the message. -/
def sampleEnv : Env :=
  { RAZORPAY_KEY_ID := "rzp_test_id"
    RAZORPAY_KEY_SECRET := "rzp_test_secret"
    hmacSha256Hex := fun key msg => "mac(" ++ key ++ "," ++ msg ++ ")"
    numberToString := fun _ => "NaN"
    dateToString := fun _ => "Invalid Date"
    stringToNumber := fun _ => .nan
    dateParse := fun _ => .nan
    idParam := sampleIdParam }

/-- A world in which every database step completes and the gateway answers as given. -/
def sampleWorld (gateway : Except String RazorpayOrder) : CreateWorld :=
  { dbOk := fun _ => true, ordersCreate := fun _ => gateway }

/-- The cart `items: [{name: "Widget", price: 100, qty: 2}], totals: {grand: 200}`. -/
def sampleCart : CreateBody :=
  { items := [{ product := .undefined, name := .str "Widget", sku := .undefined,
                price := .num (.fin 100), qty := .num (.fin 2) }]
    totals := { grand := .num (.fin 200) }
    shipping := { state := .str "Tamil Nadu", district := .str "Chennai", city := .str "Adyar",
                  pincode := .str "600020" }
    coupon := .undefined }

/-- The sample cart with another grand total. -/
def sampleCartWith (grand : Val) : CreateBody := { sampleCart with totals := { grand := grand } }

/-- Coupon `SAVE10` with `min_amount` 500 and no expiry. -/
def couponSAVE10 : CouponRow :=
  { code := .str "SAVE10", type := .str "percent", value := .num (.fin 10),
    min_amount := .num (.fin 500), expires_at := .null, description := .null }

/-- Coupon `OLD5` with `min_amount` 500, expired at time value 1000. -/
def couponOLD5 : CouponRow :=
  { code := .str "OLD5", type := .str "fixed", value := .num (.fin 5),
    min_amount := .num (.fin 500), expires_at := .date (.fin 1000), description := .str "Old" }

/-- Coupon `ZERO` whose `min_amount` is the Number 0, with no expiry. -/
def couponZERO : CouponRow :=
  { code := .str "ZERO", type := .str "fixed", value := .num (.fin 5),
    min_amount := .num (.fin 0), expires_at := .null, description := .null }

/-- A coupon table holding `ZERO` only, queried by exact code. -/
def zeroSelect : Val → Except String (List CouponRow) := fun p =>
  .ok (if p = .str "ZERO" then [couponZERO] else [])

/-- A coupon table holding `SAVE10` and `OLD5`, queried by exact code. -/
def sampleSelect : Val → Except String (List CouponRow) := fun p =>
  .ok (if p = .str "SAVE10" then [couponSAVE10] else if p = .str "OLD5" then [couponOLD5] else [])

/-- A pending order as create-order leaves it. -/
def sampleOrder (id : Nat) (razorpayOrderId : String) : OrderRow :=
  { id := id, user_id := .null, total_price := .num (.fin 200), status := "pending",
    shipping_state := .str "Tamil Nadu", shipping_district := .str "Chennai",
    shipping_city := .str "Adyar", shipping_pincode := .str "600020", coupon_code := .null,
    razorpay_order_id := .str razorpayOrderId, payment_id := .null }

/-- Two pending orders of two different gateway orders. -/
def sampleStore : Store :=
  { orders := [sampleOrder 1 "order_A", sampleOrder 2 "order_B"], order_items := [], nextId := 3 }

/-- A verify request for gateway order `order_A`, correctly signed, naming local order `2`. -/
def sampleVerify (paymentId : String) : VerifyBody :=
  { razorpay_order_id := .str "order_A"
    razorpay_payment_id := .str paymentId
    razorpay_signature := .str ("mac(rzp_test_secret,order_A|" ++ paymentId ++ ")")
    clientOrderId := .num (.fin 2) }

/-! ## Binary64 rounding -/

/-- Rounding to an integer moves a value by at most one half. -/
theorem roundHalfEven_near (t : ℚ) : |(roundHalfEven t : ℚ) - t| ≤ 1 / 2 := by
  have h1 := Int.floor_le t
  have h2 := Int.lt_floor_add_one t
  unfold roundHalfEven
  rw [abs_le]
  split_ifs <;> push_cast <;> constructor <;> linarith

/-- Rounding to an integer never goes below the floor. -/
theorem floor_le_roundHalfEven (t : ℚ) : ⌊t⌋ ≤ roundHalfEven t := by
  unfold roundHalfEven
  split_ifs <;> omega

/-- Rounding an integer returns it. -/
theorem roundHalfEven_intCast (k : ℤ) : roundHalfEven (k : ℚ) = k := by
  unfold roundHalfEven
  simp

/-- Powers of two are positive. -/
theorem two_zpow_pos (e : ℤ) : (0 : ℚ) < (2 : ℚ) ^ e := by positivity

/-- The binade of a nonzero rational. -/
theorem ulpExp_eq (x : ℚ) (e : ℤ) (h1 : (2 : ℚ) ^ e ≤ |x|) (h2 : |x| < (2 : ℚ) ^ (e + 1))
    (he : -1022 ≤ e) : ulpExp x = e - 52 := by
  have hpos : (0 : ℚ) < |x| := lt_of_lt_of_le (two_zpow_pos e) h1
  have hle : e ≤ Int.log 2 |x| := by
    have := (Int.zpow_le_iff_le_log (b := 2) (by norm_num) (x := e) hpos).1 (by exact_mod_cast h1)
    exact this
  have hlt : Int.log 2 |x| < e + 1 := by
    have := (Int.lt_zpow_iff_log_lt (b := 2) (by norm_num) (x := e + 1) hpos).1 (by exact_mod_cast h2)
    exact this
  unfold ulpExp
  have : Int.log 2 |x| = e := by omega
  rw [this, max_eq_left he]

/-- A value with 53 significant bits in its binade that does not overflow is returned as it is. -/
theorem round64_of_repr (x : ℚ) (m : ℤ) (hx : x = m * (2 : ℚ) ^ ulpExp x)
    (hlt : |x| < (2 : ℚ) ^ (1024 : ℕ)) : round64 x = .fin x := by
  unfold round64
  by_cases h0 : x = 0
  · simp [h0]
  · have ht : x / (2 : ℚ) ^ ulpExp x = (m : ℚ) := by
      rw [div_eq_iff (ne_of_gt (two_zpow_pos _))]
      exact hx
    rw [if_neg h0, ht, roundHalfEven_intCast, ← hx, if_neg (not_le.2 hlt)]

/-- A nonzero rational lies in the binade its binary logarithm names. -/
theorem log_mem (x : ℚ) (hx : x ≠ 0) :
    (2 : ℚ) ^ Int.log 2 |x| ≤ |x| ∧ |x| < (2 : ℚ) ^ (Int.log 2 |x| + 1) := by
  have hpos : (0 : ℚ) < |x| := abs_pos.2 hx
  constructor
  · exact_mod_cast Int.zpow_log_le_self (b := 2) (by norm_num) hpos
  · exact_mod_cast Int.lt_zpow_succ_log_self (b := 2) (by norm_num) |x|

/-- Integers below `2 ^ 53` in magnitude are binary64 values. -/
theorem round64_intCast (n : ℤ) (h : |n| < 2 ^ 53) : round64 (n : ℚ) = .fin (n : ℚ) := by
  by_cases h0 : n = 0
  · subst h0
    simp [round64]
  have hq0 : (n : ℚ) ≠ 0 := by exact_mod_cast h0
  obtain ⟨hlo, hhi⟩ := log_mem (n : ℚ) hq0
  set e := Int.log 2 |(n : ℚ)| with he
  have habs1 : (1 : ℚ) ≤ |(n : ℚ)| := by
    have : (1 : ℤ) ≤ |n| := Int.one_le_abs h0
    exact_mod_cast this
  have habs2 : |(n : ℚ)| < (2 : ℚ) ^ (53 : ℤ) := by
    have : |(n : ℚ)| < (2 : ℚ) ^ (53 : ℕ) := by exact_mod_cast h
    rw [← zpow_natCast] at this
    exact this
  have he0 : 0 ≤ e := by
    have hpos : (0 : ℚ) < |(n : ℚ)| := abs_pos.2 hq0
    have := (Int.zpow_le_iff_le_log (b := 2) (by norm_num) (x := 0) hpos).1 (by simpa using habs1)
    exact this
  have he53 : e < 53 := by
    have hpos : (0 : ℚ) < |(n : ℚ)| := abs_pos.2 hq0
    have := (Int.lt_zpow_iff_log_lt (b := 2) (by norm_num) (x := 53) hpos).1
      (by exact_mod_cast habs2)
    exact this
  have hulp : ulpExp (n : ℚ) = e - 52 := by
    unfold ulpExp
    rw [← he, max_eq_left (by omega)]
  obtain ⟨j, hj⟩ : ∃ j : ℕ, (j : ℤ) = 52 - e := ⟨(52 - e).toNat, Int.toNat_of_nonneg (by omega)⟩
  refine round64_of_repr (n : ℚ) (n * 2 ^ j) ?_ ?_
  · rw [hulp]
    have : e - 52 = -(j : ℤ) := by omega
    rw [this, zpow_neg, zpow_natCast]
    push_cast
    field_simp
  · calc |(n : ℚ)| < (2 : ℚ) ^ (53 : ℤ) := habs2
      _ ≤ (2 : ℚ) ^ (1024 : ℕ) := by norm_num

/-- The rounding error is at most half a unit in the last place. -/
theorem round_abs_sub_le (x : ℚ) :
    |(roundHalfEven (x / (2 : ℚ) ^ ulpExp x) : ℚ) * (2 : ℚ) ^ ulpExp x - x|
      ≤ (2 : ℚ) ^ ulpExp x / 2 := by
  have hp := two_zpow_pos (ulpExp x)
  have hx : x = x / (2 : ℚ) ^ ulpExp x * (2 : ℚ) ^ ulpExp x := by field_simp
  have hn := roundHalfEven_near (x / (2 : ℚ) ^ ulpExp x)
  calc |(roundHalfEven (x / (2 : ℚ) ^ ulpExp x) : ℚ) * (2 : ℚ) ^ ulpExp x - x|
      = |((roundHalfEven (x / (2 : ℚ) ^ ulpExp x) : ℚ) - x / (2 : ℚ) ^ ulpExp x)
          * (2 : ℚ) ^ ulpExp x| := by
        congr 1
        rw [sub_mul, ← hx]
    _ = |(roundHalfEven (x / (2 : ℚ) ^ ulpExp x) : ℚ) - x / (2 : ℚ) ^ ulpExp x|
          * (2 : ℚ) ^ ulpExp x := by rw [abs_mul, abs_of_pos hp]
    _ ≤ 1 / 2 * (2 : ℚ) ^ ulpExp x := mul_le_mul_of_nonneg_right hn hp.le
    _ = (2 : ℚ) ^ ulpExp x / 2 := by ring

/-- In the normal range the unit in the last place is at most `|x| / 2 ^ 52`. -/
theorem two_zpow_ulpExp_le (x : ℚ) (hlo : (2 : ℚ) ^ (-1022 : ℤ) ≤ |x|) :
    (2 : ℚ) ^ ulpExp x ≤ |x| / 2 ^ 52 := by
  have hpos : (0 : ℚ) < |x| := lt_of_lt_of_le (two_zpow_pos _) hlo
  have hx : x ≠ 0 := abs_pos.1 hpos
  have he : (-1022 : ℤ) ≤ Int.log 2 |x| :=
    (Int.zpow_le_iff_le_log (b := 2) (by norm_num) (x := -1022) hpos).1 (by exact_mod_cast hlo)
  unfold ulpExp
  rw [max_eq_left he, zpow_sub₀ (by norm_num : (2 : ℚ) ≠ 0)]
  have := (log_mem x hx).1
  have h52 : (2 : ℚ) ^ (52 : ℤ) = 2 ^ 52 := by norm_num
  rw [h52]
  exact div_le_div_of_nonneg_right this (by positivity)

/-- Below the normal range the unit in the last place is `2 ^ (-1074)`. -/
theorem two_zpow_ulpExp_le_max (x : ℚ) (hx : x ≠ 0) :
    (2 : ℚ) ^ ulpExp x ≤ max (|x| / 2 ^ 52) ((2 : ℚ) ^ (-1074 : ℤ)) := by
  by_cases hlo : (2 : ℚ) ^ (-1022 : ℤ) ≤ |x|
  · exact le_max_of_le_left (two_zpow_ulpExp_le x hlo)
  · apply le_max_of_le_right
    · have hpos : (0 : ℚ) < |x| := abs_pos.2 hx
      have he : Int.log 2 |x| < -1022 :=
        (Int.lt_zpow_iff_log_lt (b := 2) (by norm_num) (x := -1022) hpos).1
          (by exact_mod_cast not_le.1 hlo)
      have : ulpExp x = -1074 := by
        unfold ulpExp
        rw [max_eq_right (by omega)]
        norm_num
      rw [this]

/-- Below `2 ^ 1023` in magnitude the rounded value is finite. -/
theorem round64_finite (x : ℚ) (hhi : |x| < (2 : ℚ) ^ (1023 : ℕ)) : ∃ y, round64 x = .fin y := by
  unfold round64
  by_cases h0 : x = 0
  · exact ⟨0, by simp [h0]⟩
  · rw [if_neg h0]
    have herr := round_abs_sub_le x
    have hulp := two_zpow_ulpExp_le_max x h0
    have hsmall : (2 : ℚ) ^ (-1074 : ℤ) ≤ 1 := zpow_le_one_of_nonpos₀ (by norm_num) (by norm_num)
    have hmax : max (|x| / 2 ^ 52) ((2 : ℚ) ^ (-1074 : ℤ)) ≤ (2 : ℚ) ^ (1023 : ℕ) := by
      apply max_le
      · have : |x| / 2 ^ 52 ≤ |x| := div_le_self (abs_nonneg x) (by norm_num)
        linarith
      · have : (1 : ℚ) ≤ (2 : ℚ) ^ (1023 : ℕ) := one_le_pow₀ (by norm_num)
        linarith
    have hy : |(roundHalfEven (x / (2 : ℚ) ^ ulpExp x) : ℚ) * (2 : ℚ) ^ ulpExp x|
        < (2 : ℚ) ^ (1024 : ℕ) := by
      have h1 := abs_sub_abs_le_abs_sub
        ((roundHalfEven (x / (2 : ℚ) ^ ulpExp x) : ℚ) * (2 : ℚ) ^ ulpExp x) x
      have h2 : (2 : ℚ) ^ (1024 : ℕ) = 2 * (2 : ℚ) ^ (1023 : ℕ) := by rw [pow_succ]; ring
      have h3 := two_zpow_pos (ulpExp x)
      linarith
    rw [if_neg (not_le.2 hy)]
    exact ⟨_, rfl⟩

/-- In the normal range, with no overflow, rounding has relative error at most `2 ^ (-53)`. -/
theorem round64_near (x : ℚ) (hlo : (2 : ℚ) ^ (-1022 : ℤ) ≤ |x|)
    (hhi : |x| < (2 : ℚ) ^ (1023 : ℕ)) :
    ∃ y, round64 x = .fin y ∧ |y - x| ≤ |x| / 2 ^ 53 := by
  obtain ⟨y, hy⟩ := round64_finite x hhi
  refine ⟨y, hy, ?_⟩
  have hpos : (0 : ℚ) < |x| := lt_of_lt_of_le (two_zpow_pos _) hlo
  have h0 : x ≠ 0 := abs_pos.1 hpos
  unfold round64 at hy
  rw [if_neg h0] at hy
  split_ifs at hy
  cases hy
  have herr := round_abs_sub_le x
  have hulp := two_zpow_ulpExp_le x hlo
  calc _ ≤ (2 : ℚ) ^ ulpExp x / 2 := herr
    _ ≤ |x| / 2 ^ 52 / 2 := by linarith
    _ = |x| / 2 ^ 53 := by ring

/-- At or above `2 ^ 1024` rounding overflows to `+Infinity`. -/
theorem round64_overflow (x : ℚ) (h : (2 : ℚ) ^ (1024 : ℕ) ≤ x) : round64 x = .posInf := by
  have hxpos : 0 < x := lt_of_lt_of_le (pow_pos two_pos 1024) h
  have h0 : x ≠ 0 := ne_of_gt hxpos
  have habs : |x| = x := abs_of_pos hxpos
  obtain ⟨hlo, -⟩ := log_mem x h0
  have h1024 : (2 : ℚ) ^ (1024 : ℤ) = (2 : ℚ) ^ (1024 : ℕ) := zpow_ofNat 2 1024
  have he : (1024 : ℤ) ≤ Int.log 2 |x| := by
    refine (Int.zpow_le_iff_le_log (b := 2) (by norm_num) (x := 1024) (abs_pos.2 h0)).1 ?_
    rw [habs, Nat.cast_ofNat, h1024]
    exact h
  have hulp : ulpExp x = Int.log 2 |x| - 52 := by
    unfold ulpExp
    rw [max_eq_left (by omega)]
  have hp := two_zpow_pos (ulpExp x)
  have hsplit : (2 : ℚ) ^ (52 : ℕ) * (2 : ℚ) ^ ulpExp x = (2 : ℚ) ^ Int.log 2 |x| := by
    rw [hulp, ← zpow_natCast, ← zpow_add₀ (by norm_num : (2 : ℚ) ≠ 0)]
    congr 1
    push_cast
    ring
  have ht : (((2 : ℤ) ^ (52 : ℕ) : ℤ) : ℚ) ≤ x / (2 : ℚ) ^ ulpExp x := by
    rw [le_div_iff₀ hp, Int.cast_pow, Int.cast_ofNat, hsplit]
    exact le_of_le_of_eq hlo habs
  have hm : (2 : ℤ) ^ (52 : ℕ) ≤ roundHalfEven (x / (2 : ℚ) ^ ulpExp x) :=
    le_trans (Int.le_floor.2 ht) (floor_le_roundHalfEven _)
  have hmq : (2 : ℚ) ^ (52 : ℕ) ≤ (roundHalfEven (x / (2 : ℚ) ^ ulpExp x) : ℚ) := by
    have : (((2 : ℤ) ^ (52 : ℕ) : ℤ) : ℚ) ≤ (roundHalfEven (x / (2 : ℚ) ^ ulpExp x) : ℚ) :=
      Int.cast_le.2 hm
    rwa [Int.cast_pow, Int.cast_ofNat] at this
  have hy : (2 : ℚ) ^ (1024 : ℕ)
      ≤ (roundHalfEven (x / (2 : ℚ) ^ ulpExp x) : ℚ) * (2 : ℚ) ^ ulpExp x := by
    calc (2 : ℚ) ^ (1024 : ℕ) = (2 : ℚ) ^ (1024 : ℤ) := h1024.symm
      _ ≤ (2 : ℚ) ^ Int.log 2 |x| := zpow_le_zpow_right₀ (by norm_num) he
      _ = (2 : ℚ) ^ (52 : ℕ) * (2 : ℚ) ^ ulpExp x := hsplit.symm
      _ ≤ _ := mul_le_mul_of_nonneg_right hmq hp.le
  unfold round64
  rw [if_neg h0, if_pos (le_trans hy (le_abs_self _)), if_neg (not_lt.2 hxpos.le)]

/-- The smallest normal binary64 value is below one hundredth. -/
theorem two_zpow_min_le : (2 : ℚ) ^ (-1022 : ℤ) ≤ 1 / 128 := by
  have h : (2 : ℚ) ^ (-1022 : ℤ) ≤ (2 : ℚ) ^ (-7 : ℤ) :=
    zpow_le_zpow_right₀ (by norm_num) (by norm_num)
  have h7 : (2 : ℚ) ^ (-7 : ℤ) = 1 / 128 := by norm_num [zpow_neg]
  rwa [h7] at h

/-- The bound `2 ^ 52` is far below the overflow threshold. -/
theorem two_pow_52_lt : (2 : ℚ) ^ (52 : ℕ) < (2 : ℚ) ^ (1023 : ℕ) :=
  pow_lt_pow_right₀ (by norm_num) (by norm_num)

/-- A decimal with at most two decimal places, of magnitude at most `2 ^ 50` hundredths:
parsing it to binary64, multiplying by 100 in binary64 and rounding to the closest integer
gives back the number of hundredths exactly. -/
theorem round_hundredths (d : ℚ) (k : ℤ) (hk : d * 100 = k) (hb : |k| ≤ 2 ^ 50) :
    ∃ g p, round64 d = .fin g ∧ round64 (g * 100) = .fin p ∧ ⌊p + 1 / 2⌋ = k := by
  by_cases hk0 : k = 0
  · subst hk0
    have hd : d = 0 := by
      have : d * 100 = 0 := by simpa using hk
      linarith
    subst hd
    refine ⟨0, 0, by simp [round64], by simp [round64], ?_⟩
    norm_num
  have hKb : |(k : ℚ)| ≤ 2 ^ 50 := by exact_mod_cast hb
  have hK1 : (1 : ℚ) ≤ |(k : ℚ)| := by
    have : (1 : ℤ) ≤ |k| := Int.one_le_abs hk0
    exact_mod_cast this
  have hdabs : |d| = |(k : ℚ)| / 100 := by
    rw [← hk, abs_mul]
    norm_num
  have h52 := two_pow_52_lt
  have hmin := two_zpow_min_le
  have h52v : (2 : ℚ) ^ (52 : ℕ) = 4503599627370496 := by norm_num
  rw [h52v] at h52
  obtain ⟨g, hg, hgerr⟩ := round64_near d (by rw [hdabs]; linarith) (by rw [hdabs]; linarith)
  rw [hdabs] at hgerr
  have hgd : |g * 100 - k| ≤ |(k : ℚ)| / 2 ^ 53 := by
    have : g * 100 - k = (g - d) * 100 := by rw [← hk]; ring
    rw [this, abs_mul]
    norm_num at hgerr ⊢
    linarith
  have hg100 : |g * 100| ≤ |(k : ℚ)| + |(k : ℚ)| / 2 ^ 53 := by
    have := abs_sub_abs_le_abs_sub (g * 100) (k : ℚ)
    linarith
  have hg100' : |(k : ℚ)| - |(k : ℚ)| / 2 ^ 53 ≤ |g * 100| := by
    have := abs_sub_abs_le_abs_sub (k : ℚ) (g * 100)
    rw [abs_sub_comm] at this
    linarith
  obtain ⟨p, hp, hperr⟩ := round64_near (g * 100)
    (by norm_num at hg100' ⊢; linarith) (by norm_num at hg100 ⊢; linarith)
  refine ⟨g, p, hg, hp, ?_⟩
  have hpk : |p - k| < 1 / 2 := by
    have htri : |p - k| ≤ |p - g * 100| + |g * 100 - k| := abs_sub_le _ _ _
    norm_num at hg100 hperr hgd hKb ⊢
    linarith
  rw [abs_lt] at hpk
  rw [Int.floor_eq_iff]
  constructor <;> linarith [hpk.1, hpk.2]

/-! ## Payment verification -/

/-- C1 (as stated, refuted): a verify request whose signature equals the expected digest is
answered 500, not 200, when the database update throws. -/
theorem verify_valid_signature_not_ok :
    (sampleVerify "pay_1").razorpay_signature
        = .str (sampleEnv.hmacSha256Hex sampleEnv.RAZORPAY_KEY_SECRET
            (toStr sampleEnv (sampleVerify "pay_1").razorpay_order_id ++ "|"
              ++ toStr sampleEnv (sampleVerify "pay_1").razorpay_payment_id)) ∧
      (verify sampleEnv false sampleStore (sampleVerify "pay_1")).2
        = ⟨500, .error "Verification failed"⟩ ∧
      (verify sampleEnv false sampleStore (sampleVerify "pay_1")).2
        ≠ ⟨200, .verified (sampleVerify "pay_1").clientOrderId⟩ := by
  decide

/-- The three ways a verify request ends: signature mismatch. -/
theorem verify_of_ne (env : Env) (dbOk : Bool) (st : Store) (req : VerifyBody)
    (h : req.razorpay_signature ≠ .str (expectedSignature env req)) :
    verify env dbOk st req = (st, ⟨400, .error "Invalid signature"⟩) := by
  unfold verify
  rw [if_pos (fun e => h e.symm)]

/-- The three ways a verify request ends: signature match, update throws. -/
theorem verify_of_eq_fail (env : Env) (st : Store) (req : VerifyBody)
    (h : req.razorpay_signature = .str (expectedSignature env req)) :
    verify env false st req = (st, ⟨500, .error "Verification failed"⟩) := by
  unfold verify
  rw [if_neg (fun e => e h.symm)]
  rfl

/-- The three ways a verify request ends: signature match, update completes. -/
theorem verify_of_eq_ok (env : Env) (st : Store) (req : VerifyBody)
    (h : req.razorpay_signature = .str (expectedSignature env req)) :
    verify env true st req
      = ({ st with orders := markPaid env req.razorpay_payment_id req.clientOrderId st.orders },
          ⟨200, .verified req.clientOrderId⟩) := by
  unfold verify
  rw [if_neg (fun e => e h.symm)]
  rfl

/-- C1 (amended): the verify handler answers 400 "Invalid signature" exactly when the supplied
signature differs from the hex digest of HMAC-SHA256, keyed with the gateway secret, of
`O + "|" + P`; it answers 200 `{ok: true, orderId}` exactly when the signature equals that
digest and the database update completes, and 500 "Verification failed" exactly when the
signature equals the digest and the update throws.  So a signature that differs from the
digest, in one character or more, never succeeds. -/
theorem verify_response_iff (env : Env) (dbOk : Bool) (st : Store) (req : VerifyBody) :
    ((verify env dbOk st req).2 = ⟨400, .error "Invalid signature"⟩ ↔
        req.razorpay_signature ≠ .str (env.hmacSha256Hex env.RAZORPAY_KEY_SECRET
          (toStr env req.razorpay_order_id ++ "|" ++ toStr env req.razorpay_payment_id))) ∧
      ((verify env dbOk st req).2 = ⟨200, .verified req.clientOrderId⟩ ↔
        req.razorpay_signature = .str (env.hmacSha256Hex env.RAZORPAY_KEY_SECRET
          (toStr env req.razorpay_order_id ++ "|" ++ toStr env req.razorpay_payment_id)) ∧
          dbOk = true) ∧
      ((verify env dbOk st req).2 = ⟨500, .error "Verification failed"⟩ ↔
        req.razorpay_signature = .str (env.hmacSha256Hex env.RAZORPAY_KEY_SECRET
          (toStr env req.razorpay_order_id ++ "|" ++ toStr env req.razorpay_payment_id)) ∧
          dbOk = false) ∧
      ((verify env dbOk st req).2.status = 200 ↔
        (verify env dbOk st req).2 = ⟨200, .verified req.clientOrderId⟩) := by
  change (_ ↔ req.razorpay_signature ≠ .str (expectedSignature env req)) ∧
    (_ ↔ req.razorpay_signature = .str (expectedSignature env req) ∧ _) ∧
    (_ ↔ req.razorpay_signature = .str (expectedSignature env req) ∧ _) ∧ _
  by_cases hs : req.razorpay_signature = .str (expectedSignature env req)
  · cases dbOk
    · rw [verify_of_eq_fail env st req hs]
      simp [hs]
    · rw [verify_of_eq_ok env st req hs]
      simp [hs]
  · rw [verify_of_ne env dbOk st req hs]
    simp [hs]

/-- C2: a verify request whose signature differs from the expected digest is answered
400 "Invalid signature" and leaves the database exactly as it was, whether or not the
database is reachable. -/
theorem verify_invalid_signature_no_change (env : Env) (dbOk : Bool) (st : Store)
    (req : VerifyBody) (h : req.razorpay_signature ≠ .str (expectedSignature env req)) :
    verify env dbOk st req = (st, ⟨400, .error "Invalid signature"⟩) :=
  verify_of_ne env dbOk st req h

/-- Witness for C2: a request signed for payment `pay_1` but carrying payment `pay_2`. -/
theorem verify_invalid_signature_no_change_witness :
    verify sampleEnv true sampleStore
        { sampleVerify "pay_1" with razorpay_payment_id := .str "pay_2" }
      = (sampleStore, ⟨400, .error "Invalid signature"⟩) :=
  verify_invalid_signature_no_change sampleEnv true sampleStore
    { sampleVerify "pay_1" with razorpay_payment_id := .str "pay_2" } (by decide)

/-- C10: the update of the verify phase looks neither at the stored gateway order id nor at
the prior status.  A request correctly signed for gateway order `order_A` and naming local
order `2`, which belongs to gateway order `order_B`, marks order `2` paid with the request's
payment id; a second correctly signed request naming the now paid order `2` overwrites its
payment id. -/
theorem verify_update_unconditional :
    (sampleVerify "pay_1").razorpay_signature
        = .str (expectedSignature sampleEnv (sampleVerify "pay_1")) ∧
      sampleEnv.idParam (sampleVerify "pay_1").clientOrderId = some 2 ∧
      sampleStore.order? 2 = some (sampleOrder 2 "order_B") ∧
      (sampleOrder 2 "order_B").razorpay_order_id ≠ (sampleVerify "pay_1").razorpay_order_id ∧
      (verify sampleEnv true sampleStore (sampleVerify "pay_1")).2
        = ⟨200, .verified (.num (.fin 2))⟩ ∧
      (verify sampleEnv true sampleStore (sampleVerify "pay_1")).1.order? 2
        = some { sampleOrder 2 "order_B" with status := "paid", payment_id := .str "pay_1" } ∧
      (sampleVerify "pay_2").razorpay_signature
        = .str (expectedSignature sampleEnv (sampleVerify "pay_2")) ∧
      (verify sampleEnv true (verify sampleEnv true sampleStore (sampleVerify "pay_1")).1
          (sampleVerify "pay_2")).1.order? 2
        = some { sampleOrder 2 "order_B" with status := "paid", payment_id := .str "pay_2" } := by
  decide

/-! ## Order creation -/

/-- A create-order request either is answered 500 and leaves both tables as they were, or
the gateway created an order, every database step completed, and the transaction is
committed. -/
theorem createOrder_cases (env : Env) (w : CreateWorld) (st : Store) (req : CreateBody) :
    ((createOrder env w st req).response = ⟨500, .error "Create order failed"⟩ ∧
        (createOrder env w st req).store.orders = st.orders ∧
        (createOrder env w st req).store.order_items = st.order_items ∧
        st.nextId ≤ (createOrder env w st req).store.nextId ∧
        (createOrder env w st req).store.nextId ≤ st.nextId + 1) ∨
      ∃ razorpayOrder,
        w.ordersCreate (gatewayRequest env st.nextId req) = .ok razorpayOrder ∧
        (createOrder env w st req).response
          = ⟨200, .created st.nextId razorpayOrder.id razorpayOrder.amount env.RAZORPAY_KEY_ID⟩ ∧
        (createOrder env w st req).store
          = { orders := setRazorpayOrderId razorpayOrder.id st.nextId
                (st.orders ++ [orderRow st.nextId req])
              order_items := st.order_items ++ req.items.map (itemRow env st.nextId)
              nextId := st.nextId + 1 } := by
  unfold createOrder
  by_cases h1 : w.dbOk .connect = true
  swap
  · left; simp [h1, createFailed]
  by_cases h2 : w.dbOk .begin = true
  swap
  · left; simp [h1, h2, createFailed]
  by_cases h3 : w.dbOk .insertOrder = true
  swap
  · left; simp [h1, h2, h3, createFailed]
  by_cases h4 : ((List.range req.items.length).all fun i => w.dbOk (.insertItem i)) = true
  swap
  · left; simp only [h1, h2, h3, h4]; simp [createFailed]
  cases hg : w.ordersCreate (gatewayRequest env st.nextId req) with
  | error e => left; simp only [h1, h2, h3, h4, hg]; simp [createFailed]
  | ok rz =>
    by_cases h5 : w.dbOk .updateOrder = true
    swap
    · left; simp only [h1, h2, h3, h4, hg, h5]; simp [createFailed]
    by_cases h6 : w.dbOk .commit = true
    swap
    · left; simp only [h1, h2, h3, h4, hg, h5, h6]; simp [createFailed]
    right
    refine ⟨rz, rfl, ?_, ?_⟩ <;> simp only [h1, h2, h3, h4, hg, h5, h6] <;> simp

/-- Looking an order up by id commutes with a row update that keeps ids. -/
theorem find?_id_map (f : OrderRow → OrderRow) (hf : ∀ r, (f r).id = r.id) (id : Nat)
    (l : List OrderRow) :
    (l.map f).find? (fun r => r.id = id) = (l.find? (fun r => r.id = id)).map f := by
  induction l with
  | nil => rfl
  | cons a l ih =>
    by_cases h : a.id = id
    · simp [List.find?_cons, h, hf]
    · simp [List.find?_cons, h, hf, ih]

/-- In a well-formed store the order a committed create-order request inserted is read back
as the inserted row with the gateway order id attached. -/
theorem order?_committed (st : Store) (hwf : st.WF) (req : CreateBody) (rz : String) :
    (setRazorpayOrderId rz st.nextId (st.orders ++ [orderRow st.nextId req])).find?
        (fun r => r.id = st.nextId)
      = some { orderRow st.nextId req with razorpay_order_id := .str rz } := by
  unfold setRazorpayOrderId
  rw [find?_id_map _ (by intro r; split_ifs <;> rfl)]
  have hnone : st.orders.find? (fun r => r.id = st.nextId) = none := by
    rw [List.find?_eq_none]
    intro r hr
    have := hwf.1 r hr
    simp only [decide_eq_true_eq]
    omega
  rw [List.find?_append, hnone]
  simp [orderRow]

/-- In a well-formed store the items of the order a committed create-order request inserted
are the rows of its cart lines, in order. -/
theorem itemsOf_committed (env : Env) (st : Store) (hwf : st.WF) (req : CreateBody) :
    (st.order_items ++ req.items.map (itemRow env st.nextId)).filter
        (fun it => it.order_id = st.nextId)
      = req.items.map (itemRow env st.nextId) := by
  rw [List.filter_append]
  have hold : st.order_items.filter (fun it => it.order_id = st.nextId) = [] := by
    rw [List.filter_eq_nil_iff]
    intro it hit
    have := hwf.2.1 it hit
    simp only [decide_eq_true_eq]
    omega
  have hnew : (req.items.map (itemRow env st.nextId)).filter (fun it => it.order_id = st.nextId)
      = req.items.map (itemRow env st.nextId) := by
    rw [List.filter_eq_self]
    intro it hit
    obtain ⟨c, _, rfl⟩ := List.mem_map.1 hit
    simp [itemRow]
  rw [hold, hnew, List.nil_append]

/-- C4: when the gateway order-creation call fails, the transaction is rolled back: `orders`
and `order_items` hold exactly the rows they held before the request, and the caller is
answered 500 "Create order failed". -/
theorem createOrder_gateway_failure_rolls_back (env : Env) (w : CreateWorld) (st : Store)
    (req : CreateBody) (e : String)
    (hfail : w.ordersCreate (gatewayRequest env st.nextId req) = .error e) :
    (createOrder env w st req).store.orders = st.orders ∧
      (createOrder env w st req).store.order_items = st.order_items ∧
      (createOrder env w st req).response = ⟨500, .error "Create order failed"⟩ := by
  rcases createOrder_cases env w st req with h | ⟨rz, hrz, _, _⟩
  · exact ⟨h.2.1, h.2.2.1, h.1⟩
  · rw [hfail] at hrz
    cases hrz

/-- Witness for C4: every database step completes, the gateway call is made and throws. -/
theorem createOrder_gateway_failure_rolls_back_witness :
    (createOrder sampleEnv (sampleWorld (.error "gateway down")) sampleStore sampleCart).sent
        = some (gatewayRequest sampleEnv 3 sampleCart) ∧
      (createOrder sampleEnv (sampleWorld (.error "gateway down")) sampleStore sampleCart).store.orders
        = sampleStore.orders ∧
      (createOrder sampleEnv (sampleWorld (.error "gateway down")) sampleStore
          sampleCart).store.order_items = sampleStore.order_items ∧
      (createOrder sampleEnv (sampleWorld (.error "gateway down")) sampleStore sampleCart).response
        = ⟨500, .error "Create order failed"⟩ :=
  ⟨rfl, createOrder_gateway_failure_rolls_back sampleEnv (sampleWorld (.error "gateway down"))
    sampleStore sampleCart "gateway down" rfl⟩

/-- C5: when create-order succeeds in a well-formed store, the order read back by the returned
id has `total_price` equal to the supplied `totals.grand`, and `order_items` holds for that
order exactly one row per cart line, in order, with `unit_price = price`, `qty = qty` and
`total_price = price * qty`. -/
theorem createOrder_persists_cart (env : Env) (w : CreateWorld) (st : Store) (hwf : st.WF)
    (req : CreateBody) (hok : (createOrder env w st req).response.status = 200) :
    ∃ orderId razorpayOrderId amount key row,
      (createOrder env w st req).response
        = ⟨200, .created orderId razorpayOrderId amount key⟩ ∧
      (createOrder env w st req).store.order? orderId = some row ∧
      row.total_price = req.totals.grand ∧
      ((createOrder env w st req).store.itemsOf orderId).length = req.items.length ∧
      List.Forall₂
        (fun (it : Item) (r : OrderItemRow) =>
          r.order_id = orderId ∧ r.unit_price = it.price ∧ r.qty = it.qty ∧
            r.total_price = .num ((toNumber env it.price).mul (toNumber env it.qty)))
        req.items ((createOrder env w st req).store.itemsOf orderId) := by
  rcases createOrder_cases env w st req with h | ⟨rz, _, hresp, hstore⟩
  · rw [h.1] at hok
    cases hok
  · refine ⟨st.nextId, rz.id, rz.amount, env.RAZORPAY_KEY_ID,
      { orderRow st.nextId req with razorpay_order_id := .str rz.id }, hresp, ?_, ?_, ?_, ?_⟩
    · rw [hstore]
      exact order?_committed st hwf req rz.id
    · rfl
    · rw [hstore]
      unfold Store.itemsOf
      rw [itemsOf_committed env st hwf req, List.length_map]
    · rw [hstore]
      unfold Store.itemsOf
      rw [itemsOf_committed env st hwf req, List.forall₂_map_right_iff, List.forall₂_same]
      intro it _
      exact ⟨rfl, rfl, rfl, rfl⟩

/-- C6: when create-order succeeds in a well-formed store, the order read back by the returned
`orderId` has status `pending` and its `razorpay_order_id` is the gateway order id returned
to the caller, a string and so not null. -/
theorem createOrder_read_back_pending (env : Env) (w : CreateWorld) (st : Store) (hwf : st.WF)
    (req : CreateBody) (hok : (createOrder env w st req).response.status = 200) :
    ∃ orderId razorpayOrderId amount key row,
      (createOrder env w st req).response
        = ⟨200, .created orderId razorpayOrderId amount key⟩ ∧
      (createOrder env w st req).store.order? orderId = some row ∧
      row.status = "pending" ∧
      row.razorpay_order_id = .str razorpayOrderId ∧
      row.razorpay_order_id ≠ .null := by
  rcases createOrder_cases env w st req with h | ⟨rz, _, hresp, hstore⟩
  · rw [h.1] at hok
    cases hok
  · refine ⟨st.nextId, rz.id, rz.amount, env.RAZORPAY_KEY_ID,
      { orderRow st.nextId req with razorpay_order_id := .str rz.id }, hresp, ?_, rfl, rfl, ?_⟩
    · rw [hstore]
      exact order?_committed st hwf req rz.id
    · simp

/-- The sample store is well formed. -/
theorem sampleStore_WF : sampleStore.WF := ⟨by decide, by decide, by decide⟩

/-- In binary64, `100 * 2` is `200`. -/
theorem jsMul_100_2 : jsMul sampleEnv (.num (.fin 100)) (.num (.fin 2)) = .fin 200 := by
  have h := round64_intCast 200 (by norm_num)
  have e : ((200 : ℤ) : ℚ) = 100 * 2 := by norm_num
  rw [e] at h
  show round64 (100 * 2) = .fin 200
  rw [h]
  norm_num

/-- Witness for C5, the scenario of the claim: items `[{name: "Widget", price: 100, qty: 2}]`
with totals `{grand: 200}` give an order with `total_price` 200 and a single order item with
`total_price` 200. -/
theorem createOrder_persists_cart_witness :
    (∃ orderId razorpayOrderId amount key row,
      (createOrder sampleEnv (sampleWorld (.ok ⟨"order_C", .num (.fin 20000)⟩)) sampleStore
          sampleCart).response = ⟨200, .created orderId razorpayOrderId amount key⟩ ∧
      (createOrder sampleEnv (sampleWorld (.ok ⟨"order_C", .num (.fin 20000)⟩)) sampleStore
          sampleCart).store.order? orderId = some row ∧
      row.total_price = sampleCart.totals.grand ∧
      ((createOrder sampleEnv (sampleWorld (.ok ⟨"order_C", .num (.fin 20000)⟩)) sampleStore
          sampleCart).store.itemsOf orderId).length = sampleCart.items.length ∧
      List.Forall₂
        (fun (it : Item) (r : OrderItemRow) =>
          r.order_id = orderId ∧ r.unit_price = it.price ∧ r.qty = it.qty ∧
            r.total_price = .num ((toNumber sampleEnv it.price).mul (toNumber sampleEnv it.qty)))
        sampleCart.items
        ((createOrder sampleEnv (sampleWorld (.ok ⟨"order_C", .num (.fin 20000)⟩)) sampleStore
          sampleCart).store.itemsOf orderId)) ∧
      ((createOrder sampleEnv (sampleWorld (.ok ⟨"order_C", .num (.fin 20000)⟩)) sampleStore
          sampleCart).store.order? 3).map OrderRow.total_price = some (.num (.fin 200)) ∧
      (createOrder sampleEnv (sampleWorld (.ok ⟨"order_C", .num (.fin 20000)⟩)) sampleStore
          sampleCart).store.itemsOf 3
        = [{ order_id := 3, product_name := .str "Widget", sku := .null,
             unit_price := .num (.fin 100), qty := .num (.fin 2),
             total_price := .num (.fin 200) }] := by
  refine ⟨createOrder_persists_cart sampleEnv (sampleWorld (.ok ⟨"order_C", .num (.fin 20000)⟩))
    sampleStore sampleStore_WF sampleCart rfl, by decide, ?_⟩
  rw [← jsMul_100_2]
  rfl

/-- Witness for C6: the sample cart, created in the sample store, is read back pending with
the gateway order id `order_C`. -/
theorem createOrder_read_back_pending_witness :
    ∃ orderId razorpayOrderId amount key row,
      (createOrder sampleEnv (sampleWorld (.ok ⟨"order_C", .num (.fin 20000)⟩)) sampleStore
          sampleCart).response = ⟨200, .created orderId razorpayOrderId amount key⟩ ∧
      (createOrder sampleEnv (sampleWorld (.ok ⟨"order_C", .num (.fin 20000)⟩)) sampleStore
          sampleCart).store.order? orderId = some row ∧
      row.status = "pending" ∧
      row.razorpay_order_id = .str razorpayOrderId ∧
      row.razorpay_order_id ≠ .null :=
  createOrder_read_back_pending sampleEnv (sampleWorld (.ok ⟨"order_C", .num (.fin 20000)⟩))
    sampleStore sampleStore_WF sampleCart rfl

/-! ## Amount sent to the gateway -/

/-- Whatever create-order sends to the gateway is the order-creation call for the new order. -/
theorem createOrder_sent (env : Env) (w : CreateWorld) (st : Store) (req : CreateBody)
    (g : GatewayRequest) (h : (createOrder env w st req).sent = some g) :
    g = gatewayRequest env st.nextId req := by
  unfold createOrder at h
  by_cases h1 : w.dbOk .connect = true
  swap
  · simp [h1, createFailed] at h
  by_cases h2 : w.dbOk .begin = true
  swap
  · simp [h1, h2, createFailed] at h
  by_cases h3 : w.dbOk .insertOrder = true
  swap
  · simp [h1, h2, h3, createFailed] at h
  by_cases h4 : ((List.range req.items.length).all fun i => w.dbOk (.insertItem i)) = true
  swap
  · simp only [h1, h2, h3, h4] at h
    simp [createFailed] at h
  simp only [h1, h2, h3, h4] at h
  cases hg : w.ordersCreate (gatewayRequest env st.nextId req) with
  | error e =>
    simp only [hg] at h
    simp [createFailed] at h
    exact h.symm
  | ok rz =>
    simp only [hg] at h
    by_cases h5 : w.dbOk .updateOrder = true
    swap
    · simp [h5, createFailed] at h
      exact h.symm
    by_cases h6 : w.dbOk .commit = true
    swap
    · simp [h5, h6, createFailed] at h
      exact h.symm
    simp [h5, h6] at h
    exact h.symm

/-- C7 (as stated, refuted): for the grand total `2 ^ 1023`, a binary64 value with no decimal
places, the amount the handler passes to the gateway is `Infinity`: not an integer, and not
`grand * 100`. -/
theorem amountPaise_overflow :
    (createOrder sampleEnv (sampleWorld (.error "amount must be an integer")) sampleStore
        (sampleCartWith (.num (.fin (2 ^ 1023))))).sent
      = some { amount := .posInf, currency := "INR", receipt := "rcpt_3", payment_capture := 1 } ∧
      ¬ JsNum.posInf.IsInteger ∧
      JsNum.posInf ≠ .fin (2 ^ 1023 * 100) := by
  refine ⟨?_, ?_, ?_⟩
  · have h : amountPaise sampleEnv (sampleCartWith (.num (.fin (2 ^ 1023)))) = .posInf := by
      show (round64 (2 ^ 1023 * 100)).mathRound = .posInf
      rw [round64_overflow _ (by
        have : (2 : ℚ) ^ (1024 : ℕ) = 2 ^ 1023 * 2 := pow_succ 2 1023
        rw [this]
        exact mul_le_mul_of_nonneg_left (by norm_num) (pow_pos two_pos 1023).le)]
      rfl
    rw [← h]
    rfl
  · rintro ⟨k, hk⟩
    cases hk
  · intro h
    cases h

/-- C7 (amended): the amount passed to the gateway is `Math.round(totals.grand * 100)`,
computed in binary64.  When `totals.grand` is a number with `|grand * 100| < 2 ^ 1023` the
amount is an integer; when it is the binary64 value of a decimal `d` with at most two decimal
places and `|d * 100| ≤ 2 ^ 50`, the amount is `d * 100` exactly. -/
theorem amountPaise_sent (env : Env) (w : CreateWorld) (st : Store) (req : CreateBody)
    (g : GatewayRequest) (hsent : (createOrder env w st req).sent = some g) :
    g.amount = ((toNumber env req.totals.grand).mul (.fin 100)).mathRound ∧
      (∀ x : ℚ, req.totals.grand = .num (.fin x) → |x * 100| < 2 ^ 1023 →
        g.amount.IsInteger) ∧
      (∀ (d : ℚ) (k : ℤ), req.totals.grand = .num (round64 d) → d * 100 = k → |k| ≤ 2 ^ 50 →
        g.amount = .fin k) := by
  have hg := createOrder_sent env w st req g hsent
  subst hg
  refine ⟨rfl, ?_, ?_⟩
  · intro x hx hb
    obtain ⟨y, hy⟩ := round64_finite (x * 100) hb
    refine ⟨⌊y + 1 / 2⌋, ?_⟩
    show (jsMul env req.totals.grand (.num (.fin 100))).mathRound = _
    rw [hx]
    show (round64 (x * 100)).mathRound = _
    rw [hy]
    rfl
  · intro d k hd hk hb
    obtain ⟨a, p, ha, hp, hfl⟩ := round_hundredths d k hk hb
    show (jsMul env req.totals.grand (.num (.fin 100))).mathRound = _
    rw [hd, ha]
    show (round64 (a * 100)).mathRound = _
    rw [hp]
    show JsNum.fin ((⌊p + 1 / 2⌋ : ℤ) : ℚ) = _
    rw [hfl]

/-- Witness for C7: the grand total `19.99` is sent as `1999` paise. -/
theorem amountPaise_sent_witness :
    (createOrder sampleEnv (sampleWorld (.ok ⟨"order_C", .num (.fin 1999)⟩)) sampleStore
        (sampleCartWith (.num (round64 (1999 / 100))))).sent.map GatewayRequest.amount
      = some (.fin 1999) := by
  have h := (amountPaise_sent sampleEnv (sampleWorld (.ok ⟨"order_C", .num (.fin 1999)⟩))
    sampleStore (sampleCartWith (.num (round64 (1999 / 100)))) _ rfl).2.2 (1999 / 100) 1999 rfl
    (by norm_num) (by norm_num)
  have e : (createOrder sampleEnv (sampleWorld (.ok ⟨"order_C", .num (.fin 1999)⟩)) sampleStore
      (sampleCartWith (.num (round64 (1999 / 100))))).sent
      = some (gatewayRequest sampleEnv sampleStore.nextId
          (sampleCartWith (.num (round64 (1999 / 100))))) := rfl
  rw [e, Option.map_some', h]
  norm_num

/-! ## Status transitions -/

/-- The status of an order depends on the `orders` table only. -/
theorem statusOf_congr (st st' : Store) (h : st'.orders = st.orders) (id : Nat) :
    st'.statusOf id = st.statusOf id := by
  unfold Store.statusOf Store.order?
  rw [h]

/-- Effect of the paid-marking update on the status of order `id`. -/
theorem statusOf_markPaid (env : Env) (paymentId clientOrderId : Val) (st : Store) (id : Nat) :
    ({ st with orders := markPaid env paymentId clientOrderId st.orders } : Store).statusOf id
      = (st.statusOf id).map fun s => if env.idParam clientOrderId = some id then "paid" else s := by
  unfold Store.statusOf Store.order? markPaid
  rw [find?_id_map _ (by intro r; split_ifs <;> rfl)]
  cases hfind : st.orders.find? (fun r => r.id = id) with
  | none => rfl
  | some r =>
    have hid : r.id = id := by simpa using List.find?_some hfind
    simp only [Option.map_some', hid]
    split_ifs <;> rfl

/-- Effect of a committed create-order request on the status of order `id`. -/
theorem statusOf_committed (st : Store) (req : CreateBody) (rz : String)
    (items : List OrderItemRow) (id : Nat) :
    ({ orders := setRazorpayOrderId rz st.nextId (st.orders ++ [orderRow st.nextId req])
       order_items := items
       nextId := st.nextId + 1 } : Store).statusOf id
      = (st.statusOf id).or (if st.nextId = id then some "pending" else none) := by
  unfold Store.statusOf Store.order? setRazorpayOrderId
  rw [find?_id_map _ (by intro r; split_ifs <;> rfl), List.find?_append]
  cases hfind : st.orders.find? (fun r => r.id = id) with
  | some r =>
    have e : ∀ o : Option OrderRow, (some r).or o = some r := fun _ => rfl
    have e' : ∀ o : Option String, (some r.status).or o = some r.status := fun _ => rfl
    rw [e, Option.map_some', Option.map_some', Option.map_some', e']
    congr 1
    split_ifs <;> rfl
  | none =>
    by_cases hn : st.nextId = id
    · simp [List.find?_cons, orderRow, hn]
    · simp [List.find?_cons, orderRow, hn]

/-- One request changes the status of an order only from absent to `pending`, or, for a
verify request that names it with a matching signature, to `paid`. -/
theorem step_status (env : Env) (st : Store) (r : Request) (id : Nat) :
    (∀ s, st.statusOf id = some s →
        (step env st r).statusOf id = some s ∨
          ((step env st r).statusOf id = some "paid" ∧ r.ValidVerifyOf env id)) ∧
      (st.statusOf id = none →
        (step env st r).statusOf id = none ∨ (step env st r).statusOf id = some "pending") := by
  cases r with
  | create w req =>
    show (∀ s, st.statusOf id = some s →
        (createOrder env w st req).store.statusOf id = some s ∨ _) ∧
      (st.statusOf id = none → (createOrder env w st req).store.statusOf id = none ∨
        (createOrder env w st req).store.statusOf id = some "pending")
    rcases createOrder_cases env w st req with h | ⟨rz, _, _, hstore⟩
    · rw [statusOf_congr st _ h.2.1 id]
      exact ⟨fun s hs => Or.inl hs, fun hn => Or.inl hn⟩
    · rw [hstore, statusOf_committed]
      constructor
      · intro s hs
        left
        rw [hs]
        rfl
      · intro hn
        rw [hn]
        by_cases hid : st.nextId = id
        · right; simp [hid]
        · left; simp [hid]
  | verify dbOk req =>
    show (∀ s, st.statusOf id = some s →
        (verify env dbOk st req).1.statusOf id = some s ∨
          ((verify env dbOk st req).1.statusOf id = some "paid" ∧
            (Request.verify dbOk req).ValidVerifyOf env id)) ∧
      (st.statusOf id = none → (verify env dbOk st req).1.statusOf id = none ∨
        (verify env dbOk st req).1.statusOf id = some "pending")
    by_cases hs : req.razorpay_signature = .str (expectedSignature env req)
    · cases dbOk
      · rw [verify_of_eq_fail env st req hs]
        exact ⟨fun s h => Or.inl h, fun hn => Or.inl hn⟩
      · rw [verify_of_eq_ok env st req hs]
        simp only [statusOf_markPaid]
        constructor
        · intro s h
          rw [h]
          by_cases hid : env.idParam req.clientOrderId = some id
          · right
            exact ⟨by simp [hid], hid, hs⟩
          · left
            simp [hid]
        · intro hn
          left
          rw [hn]
          rfl
    · rw [verify_of_ne env dbOk st req hs]
      exact ⟨fun s h => Or.inl h, fun hn => Or.inl hn⟩

/-- A sequence of requests changes the status of an order only from absent to `pending`, and
to `paid` only when a verify request of the sequence names it with a matching signature. -/
theorem run_status (env : Env) (rs : List Request) (id : Nat) :
    ∀ st : Store,
      (∀ s, st.statusOf id = some s →
        (run env st rs).statusOf id = some s ∨
          ((run env st rs).statusOf id = some "paid" ∧ ∃ q ∈ rs, q.ValidVerifyOf env id)) ∧
      (st.statusOf id = none →
        (run env st rs).statusOf id = none ∨ (run env st rs).statusOf id = some "pending" ∨
          ((run env st rs).statusOf id = some "paid" ∧ ∃ q ∈ rs, q.ValidVerifyOf env id)) := by
  induction rs with
  | nil =>
    intro st
    exact ⟨fun s h => Or.inl h, fun h => Or.inl h⟩
  | cons r rs ih =>
    intro st
    have hstep := step_status env st r id
    have hrun : run env st (r :: rs) = run env (step env st r) rs := rfl
    rw [hrun]
    obtain ⟨ih1, ih2⟩ := ih (step env st r)
    have lift : ∀ {t : Option String},
        ((run env (step env st r) rs).statusOf id = t ∨
          ((run env (step env st r) rs).statusOf id = some "paid" ∧
            ∃ q ∈ rs, q.ValidVerifyOf env id)) →
        ((run env (step env st r) rs).statusOf id = t ∨
          ((run env (step env st r) rs).statusOf id = some "paid" ∧
            ∃ q ∈ r :: rs, q.ValidVerifyOf env id)) := by
      rintro t (h | ⟨h, q, hq, hv⟩)
      · exact Or.inl h
      · exact Or.inr ⟨h, q, List.mem_cons_of_mem _ hq, hv⟩
    constructor
    · intro s hs
      rcases hstep.1 s hs with h | ⟨h, hv⟩
      · exact lift (ih1 s h)
      · right
        refine ⟨?_, r, List.mem_cons_self _ _, hv⟩
        rcases ih1 "paid" h with h' | ⟨h', _⟩ <;> exact h'
    · intro hn
      rcases hstep.2 hn with h | h
      · rcases ih2 h with h' | h' | ⟨h', q, hq, hv⟩
        · exact Or.inl h'
        · exact Or.inr (Or.inl h')
        · exact Or.inr (Or.inr ⟨h', q, List.mem_cons_of_mem _ hq, hv⟩)
      · rcases ih1 "pending" h with h' | ⟨h', q, hq, hv⟩
        · exact Or.inr (Or.inl h')
        · exact Or.inr (Or.inr ⟨h', q, List.mem_cons_of_mem _ hq, hv⟩)

/-- C3: along every sequence of create-order and verify requests, from any database state, an
order that is `paid` stays `paid`; the status of an existing order either stays as it is or
becomes `paid`; a new order starts `pending`; and an order is `paid` after requests `post` only
if it was `paid` before them or one of them is a verify request naming its id whose signature
matches the expected HMAC. -/
theorem status_only_pending_to_paid (env : Env) (st : Store) (pre post : List Request)
    (id : Nat) :
    ((run env st pre).statusOf id = some "paid" →
        (run env st (pre ++ post)).statusOf id = some "paid") ∧
      (∀ s, (run env st pre).statusOf id = some s →
        (run env st (pre ++ post)).statusOf id = some s ∨
          (run env st (pre ++ post)).statusOf id = some "paid") ∧
      ((run env st pre).statusOf id = none →
        (run env st (pre ++ post)).statusOf id = none ∨
          (run env st (pre ++ post)).statusOf id = some "pending" ∨
          (run env st (pre ++ post)).statusOf id = some "paid") ∧
      ((run env st (pre ++ post)).statusOf id = some "paid" →
        (run env st pre).statusOf id = some "paid" ∨ ∃ q ∈ post, q.ValidVerifyOf env id) := by
  have happ : run env st (pre ++ post) = run env (run env st pre) post := by
    unfold run
    rw [List.foldl_append]
  rw [happ]
  obtain ⟨h1, h2⟩ := run_status env post id (run env st pre)
  refine ⟨?_, ?_, ?_, ?_⟩
  · intro hp
    rcases h1 "paid" hp with h | ⟨h, _⟩ <;> exact h
  · intro s hs
    rcases h1 s hs with h | ⟨h, _⟩
    · exact Or.inl h
    · exact Or.inr h
  · intro hn
    rcases h2 hn with h | h | ⟨h, _⟩
    · exact Or.inl h
    · exact Or.inr (Or.inl h)
    · exact Or.inr (Or.inr h)
  · intro hp
    cases hs : (run env st pre).statusOf id with
    | none =>
      rcases h2 hs with h | h | ⟨_, hv⟩
      · rw [h] at hp
        cases hp
      · rw [h] at hp
        exact absurd hp (by decide)
      · exact Or.inr hv
    | some s =>
      rcases h1 s hs with h | ⟨_, hv⟩
      · rw [h] at hp
        exact Or.inl hp
      · exact Or.inr hv

/-! ## Coupon validation -/

/-- C8 (as stated, refuted): for the empty code, which is in no coupon of the table, the
validator answers "Missing code", not "Invalid coupon". -/
theorem couponValidate_empty_code :
    sampleSelect (.str "") = .ok [] ∧
      couponValidate sampleEnv sampleSelect 2000 ⟨.str "", .num (.fin 400)⟩
        = ⟨400, .error "Missing code"⟩ ∧
      couponValidate sampleEnv sampleSelect 2000 ⟨.str "", .num (.fin 400)⟩
        ≠ ⟨400, .error "Invalid coupon"⟩ :=
  ⟨rfl, by decide, by decide⟩

/-- The validator's answer once the code is present and the lookup has completed. -/
theorem couponValidate_of_rows (env : Env) (select : Val → Except String (List CouponRow))
    (now : ℤ) (req : CouponBody) (rows : List CouponRow) (hcode : truthy req.code = true)
    (hsel : select req.code = .ok rows) :
    couponValidate env select now req =
      match rows.head? with
      | none => ⟨400, .error "Invalid coupon"⟩
      | some row =>
        if truthy row.expires_at && (newDate env row.expires_at).lt (.fin now) then
          ⟨400, .error "Coupon expired"⟩
        else if truthy row.min_amount && jsLtNum env req.subtotal (toNumber env row.min_amount) then
          ⟨400, .error "Minimum order not met"⟩
        else couponAccepted env row := by
  unfold couponValidate
  simp only [hcode, hsel]
  rfl

/-- C8 (amended): when the code is present (truthy) and the lookup completes, the validator's
answer is decided by the first failing check in the order: code not found, "Invalid coupon";
expiry present and strictly before the current time, "Coupon expired"; minimum amount present
and subtotal below it, "Minimum order not met"; it answers `valid: true` with the coupon's
code, type, numeric value and description exactly when none of the three fails.  A coupon
both expired and below its minimum is reported as expired.  A missing or empty code is
answered "Missing code" before any lookup, and a lookup that throws 500. -/
theorem couponValidate_first_failing_check (env : Env)
    (select : Val → Except String (List CouponRow)) (now : ℤ) (req : CouponBody) :
    (truthy req.code = false →
        couponValidate env select now req = ⟨400, .error "Missing code"⟩) ∧
      (truthy req.code = true → ∀ e, select req.code = .error e →
        couponValidate env select now req = ⟨500, .error "Coupon check failed"⟩) ∧
      (truthy req.code = true → ∀ rows, select req.code = .ok rows →
        (rows.head? = none →
          couponValidate env select now req = ⟨400, .error "Invalid coupon"⟩) ∧
        (∀ row, rows.head? = some row →
          (row.Expired env now →
            couponValidate env select now req = ⟨400, .error "Coupon expired"⟩) ∧
          (¬ row.Expired env now → row.BelowMinimum env req.subtotal →
            couponValidate env select now req = ⟨400, .error "Minimum order not met"⟩) ∧
          (¬ row.Expired env now → ¬ row.BelowMinimum env req.subtotal →
            couponValidate env select now req
              = ⟨200, .coupon row.code row.type (toNumber env row.value)
                  (jsOr row.description (.str "Coupon applied"))⟩)) ∧
        ((couponValidate env select now req).status = 200 ↔
          ∃ row, rows.head? = some row ∧ ¬ row.Expired env now ∧
            ¬ row.BelowMinimum env req.subtotal)) := by
  refine ⟨?_, ?_, ?_⟩
  · intro h
    unfold couponValidate
    simp [h]
  · intro h e he
    unfold couponValidate
    simp [h, he]
  · intro hcode rows hsel
    rw [couponValidate_of_rows env select now req rows hcode hsel]
    cases hrow : rows.head? with
    | none => simp
    | some row =>
      have key : (∀ r, some row = some r → r = row) := fun r h => (Option.some.inj h).symm
      by_cases hexp : row.Expired env now
      · have hc : (truthy row.expires_at && (newDate env row.expires_at).lt (.fin now)) = true := by
          rw [Bool.and_eq_true]; exact hexp
        simp only [hc, if_true]
        refine ⟨by simp, ?_, ?_⟩
        · intro r hr
          obtain rfl := key r hr
          exact ⟨fun _ => trivial, fun h => absurd hexp h, fun h => absurd hexp h⟩
        · constructor
          · intro h; cases h
          · rintro ⟨r, hr, hne, _⟩
            obtain rfl := key r hr
            exact absurd hexp hne
      · have hc : ¬ (truthy row.expires_at && (newDate env row.expires_at).lt (.fin now)) = true := by
          rw [Bool.and_eq_true]; exact hexp
        simp only [hc, if_false]
        by_cases hmin : row.BelowMinimum env req.subtotal
        · have hm : (truthy row.min_amount &&
              jsLtNum env req.subtotal (toNumber env row.min_amount)) = true := by
            rw [Bool.and_eq_true]; exact hmin
          simp only [hm, if_true]
          refine ⟨by simp, ?_, ?_⟩
          · intro r hr
            obtain rfl := key r hr
            exact ⟨fun h => absurd h hexp, fun _ _ => rfl, fun _ h => absurd hmin h⟩
          · constructor
            · intro h; cases h
            · rintro ⟨r, hr, _, hne⟩
              obtain rfl := key r hr
              exact absurd hmin hne
        · have hm : ¬ (truthy row.min_amount &&
              jsLtNum env req.subtotal (toNumber env row.min_amount)) = true := by
            rw [Bool.and_eq_true]; exact hmin
          simp only [hm, if_false]
          refine ⟨by simp, ?_, ?_⟩
          · intro r hr
            obtain rfl := key r hr
            exact ⟨fun h => absurd h hexp, fun _ h => absurd h hmin, fun _ _ => rfl⟩
          · constructor
            · intro _
              exact ⟨row, rfl, hexp, hmin⟩
            · intro _
              rfl

/-- Witness for C8: coupon `OLD5` is both expired and below its minimum for subtotal 400, and
is reported as expired. -/
theorem couponValidate_first_failing_check_witness :
    couponOLD5.Expired sampleEnv 2000 ∧
      couponOLD5.BelowMinimum sampleEnv (.num (.fin 400)) ∧
      couponValidate sampleEnv sampleSelect 2000 ⟨.str "OLD5", .num (.fin 400)⟩
        = ⟨400, .error "Coupon expired"⟩ := by
  have hexp : couponOLD5.Expired sampleEnv 2000 := by
    refine ⟨rfl, ?_⟩
    show decide ((1000 : ℚ) < ((2000 : ℤ) : ℚ)) = true
    rw [decide_eq_true_eq]
    norm_num
  have hmin : couponOLD5.BelowMinimum sampleEnv (.num (.fin 400)) := by
    refine ⟨by decide, ?_⟩
    show decide ((400 : ℚ) < 500) = true
    rw [decide_eq_true_eq]
    norm_num
  exact ⟨hexp, hmin,
    ((((couponValidate_first_failing_check sampleEnv sampleSelect 2000
      ⟨.str "OLD5", .num (.fin 400)⟩).2.2 (by decide) [couponOLD5] rfl).2.1 couponOLD5 rfl).1
        hexp)⟩

/-- C9 (as stated, refuted): coupon `ZERO` exists, is not expired and has the minimum order
amount 0, held as the Number 0.  For the numeric subtotal `-1`, strictly below that minimum,
the guard `row.min_amount && …` is falsy, the minimum check is skipped, and the validator
answers 200 `valid: true`, not 400 "Minimum order not met". -/
theorem coupon_zero_minimum_accepted :
    zeroSelect (.str "ZERO") = .ok [couponZERO] ∧
      ¬ couponZERO.Expired sampleEnv 2000 ∧
      toNumber sampleEnv couponZERO.min_amount = .fin 0 ∧
      (toNumber sampleEnv (.num (.fin (-1)))).lt (toNumber sampleEnv couponZERO.min_amount)
        = true ∧
      truthy couponZERO.min_amount = false ∧
      couponValidate sampleEnv zeroSelect 2000 ⟨.str "ZERO", .num (.fin (-1))⟩
        = ⟨200, .coupon (.str "ZERO") (.str "fixed") (.fin 5) (.str "Coupon applied")⟩ ∧
      couponValidate sampleEnv zeroSelect 2000 ⟨.str "ZERO", .num (.fin (-1))⟩
        ≠ ⟨400, .error "Minimum order not met"⟩ := by
  have hlt : (toNumber sampleEnv (.num (.fin (-1)))).lt (toNumber sampleEnv couponZERO.min_amount)
      = true := by
    show decide ((-1 : ℚ) < 0) = true
    rw [decide_eq_true_eq]
    norm_num
  have hfalsy : truthy couponZERO.min_amount = false := by
    show decide ((0 : ℚ) ≠ 0) = false
    simp
  have hval : couponValidate sampleEnv zeroSelect 2000 ⟨.str "ZERO", .num (.fin (-1))⟩
      = ⟨200, .coupon (.str "ZERO") (.str "fixed") (.fin 5) (.str "Coupon applied")⟩ := by
    rw [couponValidate_of_rows sampleEnv zeroSelect 2000 ⟨.str "ZERO", .num (.fin (-1))⟩
      [couponZERO] (by decide) rfl]
    show (if (truthy couponZERO.expires_at &&
        (newDate sampleEnv couponZERO.expires_at).lt (.fin ((2000 : ℤ) : ℚ))) = true then _
      else if (truthy couponZERO.min_amount && _) = true then _ else _) = _
    rw [hfalsy]
    rfl
  refine ⟨rfl, fun h => absurd h.1 (by decide), rfl, hlt, hfalsy, hval, ?_⟩
  rw [hval]
  decide

/-- C9 (amended): for an existing coupon (the lookup for the request's code returns it) that
is not expired and has a minimum order amount `m` that is present as the handler tests it
(a truthy `min_amount`: not null, not the Number 0, not the empty string), and a numeric
subtotal `s`, the validator answers 400 "Minimum order not met" when `s < m`, and 200
`valid: true` when `s = m` and when `s > m`. -/
theorem coupon_minimum_boundary (env : Env) (select : Val → Except String (List CouponRow))
    (now : ℤ) (req : CouponBody) (rows : List CouponRow) (row : CouponRow) (s m : ℚ)
    (hcode : truthy req.code = true) (hsel : select req.code = .ok rows)
    (hrow : rows.head? = some row) (hexp : ¬ row.Expired env now)
    (hpres : truthy row.min_amount = true) (hmin : toNumber env row.min_amount = .fin m)
    (hsub : req.subtotal = .num (.fin s)) :
    (s < m → couponValidate env select now req = ⟨400, .error "Minimum order not met"⟩) ∧
      (s = m → couponValidate env select now req
        = ⟨200, .coupon row.code row.type (toNumber env row.value)
            (jsOr row.description (.str "Coupon applied"))⟩) ∧
      (m < s → couponValidate env select now req
        = ⟨200, .coupon row.code row.type (toNumber env row.value)
            (jsOr row.description (.str "Coupon applied"))⟩) := by
  have hc : ¬ (truthy row.expires_at && (newDate env row.expires_at).lt (.fin now)) = true := by
    rw [Bool.and_eq_true]; exact hexp
  have hlt : jsLtNum env req.subtotal (toNumber env row.min_amount) = decide (s < m) := by
    rw [hmin, hsub]
    rfl
  have hm2 : (truthy row.min_amount && jsLtNum env req.subtotal (toNumber env row.min_amount))
      = decide (s < m) := by
    rw [hpres, hlt, Bool.true_and]
  have hval : couponValidate env select now req
      = if s < m then ⟨400, .error "Minimum order not met"⟩ else couponAccepted env row := by
    rw [couponValidate_of_rows env select now req rows hcode hsel, hrow]
    show (if _ then _ else if _ then _ else _) = _
    rw [if_neg hc, hm2]
    simp only [decide_eq_true_eq]
  rw [hval]
  refine ⟨fun h => ?_, fun h => ?_, fun h => ?_⟩
  · rw [if_pos h]
  · rw [if_neg (by rw [h]; exact lt_irrefl m)]
    rfl
  · rw [if_neg (not_lt.2 h.le)]
    rfl

/-- Witness for C9, the scenario of the claim: coupon `SAVE10` with `min_amount` 500 is
rejected for subtotal 400 and accepted for subtotal 500. -/
theorem coupon_minimum_boundary_witness :
    couponValidate sampleEnv sampleSelect 2000 ⟨.str "SAVE10", .num (.fin 400)⟩
        = ⟨400, .error "Minimum order not met"⟩ ∧
      couponValidate sampleEnv sampleSelect 2000 ⟨.str "SAVE10", .num (.fin 500)⟩
        = ⟨200, .coupon (.str "SAVE10") (.str "percent") (.fin 10) (.str "Coupon applied")⟩ :=
  ⟨(coupon_minimum_boundary sampleEnv sampleSelect 2000 ⟨.str "SAVE10", .num (.fin 400)⟩
      [couponSAVE10] couponSAVE10 400 500 (by decide) rfl rfl (fun h => absurd h.1 (by decide))
      (by decide) rfl rfl).1 (by norm_num),
    (coupon_minimum_boundary sampleEnv sampleSelect 2000 ⟨.str "SAVE10", .num (.fin 500)⟩
      [couponSAVE10] couponSAVE10 500 500 (by decide) rfl rfl (fun h => absurd h.1 (by decide))
      (by decide) rfl rfl).2.1 rfl⟩

/-- Witness for C3: order `2` of the sample store is paid by a correctly signed verify request
and stays paid through a later create-order request and a later verify request whose update
throws. -/
theorem status_only_pending_to_paid_witness :
    (run sampleEnv sampleStore [.verify true (sampleVerify "pay_1")]).statusOf 2 = some "paid" ∧
      (run sampleEnv sampleStore
        ([.verify true (sampleVerify "pay_1")] ++
          [.create (sampleWorld (.ok ⟨"order_C", .num (.fin 20000)⟩)) sampleCart,
            .verify false (sampleVerify "pay_2")])).statusOf 2 = some "paid" :=
  ⟨by decide,
    (status_only_pending_to_paid sampleEnv sampleStore [.verify true (sampleVerify "pay_1")]
      [.create (sampleWorld (.ok ⟨"order_C", .num (.fin 20000)⟩)) sampleCart,
        .verify false (sampleVerify "pay_2")] 2).1 (by decide)⟩

end AmmuOrganics
